import Mathlib

/-!
Shallow embedding of the Deep-Research-AI-Agent core: the Search Gateway
(`webSearch`, `ontologySearch` in `foundry-tools.ts`, `searchOntologyObjects`
in `foundry-client.ts`) and the research-loop helper functions
(`research-functions.ts`).  External calls (HTTP fetch, model calls) are
passed in as explicit outcomes (`Except String _`), mirroring the fact that
in the source every such call either resolves with a parsed value or throws.
JavaScript strings are modelled as Lean `String`; `s.slice(0, n)` is
`jsSlice s n`.
-/

/-- A JSON value, as produced by `JSON.parse` / consumed by `JSON.stringify`
in the TypeScript source. -/
inductive Json where
  | str (s : String)
  | num (n : Int)
  | bool (b : Bool)
  | null
  | arr (xs : List Json)
  | obj (fields : List (String × Json))

/-- JavaScript `s.slice(0, n)`. -/
def jsSlice (s : String) (n : Nat) : String :=
  String.mk (s.data.take n)

theorem jsSlice_length (s : String) (n : Nat) :
    (jsSlice s n).length = min n s.length := by
  cases s with
  | mk l => simp [jsSlice, String.length]

theorem jsSlice_length_le (s : String) (n : Nat) :
    (jsSlice s n).length ≤ n := by
  rw [jsSlice_length]; exact Nat.min_le_left _ _

/-- Escaping applied to a character by `JSON.stringify` (the cases relevant
to this code base). -/
def escapeChar (c : Char) : String :=
  if c = '"' then "\\\""
  else if c = '\\' then "\\\\"
  else if c = '\n' then "\\n"
  else if c = '\t' then "\\t"
  else if c = '\r' then "\\r"
  else String.mk [c]

/-- String escaping of `JSON.stringify`. -/
def jsonEscape (s : String) : String :=
  String.join (s.data.map escapeChar)

mutual
/-- Compact rendering, `JSON.stringify(v)`. -/
def Json.render : Json → String
  | .str s => "\"" ++ jsonEscape s ++ "\""
  | .num n => toString n
  | .bool b => if b then "true" else "false"
  | .null => "null"
  | .arr xs => "[" ++ Json.renderItems xs ++ "]"
  | .obj fs => "\x7b" ++ Json.renderFields fs ++ "\x7d"

def Json.renderItems : List Json → String
  | [] => ""
  | [x] => Json.render x
  | x :: y :: xs => Json.render x ++ "," ++ Json.renderItems (y :: xs)

def Json.renderFields : List (String × Json) → String
  | [] => ""
  | [(k, v)] => "\"" ++ jsonEscape k ++ "\":" ++ Json.render v
  | (k, v) :: f :: fs =>
      "\"" ++ jsonEscape k ++ "\":" ++ Json.render v ++ "," ++ Json.renderFields (f :: fs)
end

def nSpaces (n : Nat) : String := String.mk (List.replicate n ' ')

mutual
/-- Pretty rendering with a 2-space indent, `JSON.stringify(v, null, 2)`;
`lvl` is the current nesting depth. -/
def Json.renderPretty : Nat → Json → String
  | _, .str s => "\"" ++ jsonEscape s ++ "\""
  | _, .num n => toString n
  | _, .bool b => if b then "true" else "false"
  | _, .null => "null"
  | _, .arr [] => "[]"
  | lvl, .arr (x :: xs) =>
      "[\n" ++ Json.renderPrettyItems (lvl + 1) (x :: xs) ++ "\n" ++ nSpaces (lvl * 2) ++ "]"
  | _, .obj [] => "\x7b\x7d"
  | lvl, .obj (f :: fs) =>
      "\x7b\n" ++ Json.renderPrettyFields (lvl + 1) (f :: fs) ++ "\n" ++ nSpaces (lvl * 2) ++ "\x7d"

def Json.renderPrettyItems : Nat → List Json → String
  | _, [] => ""
  | lvl, [x] => nSpaces (lvl * 2) ++ Json.renderPretty lvl x
  | lvl, x :: y :: xs =>
      nSpaces (lvl * 2) ++ Json.renderPretty lvl x ++ ",\n" ++ Json.renderPrettyItems lvl (y :: xs)

def Json.renderPrettyFields : Nat → List (String × Json) → String
  | _, [] => ""
  | lvl, [(k, v)] =>
      nSpaces (lvl * 2) ++ "\"" ++ jsonEscape k ++ "\": " ++ Json.renderPretty lvl v
  | lvl, (k, v) :: f :: fs =>
      nSpaces (lvl * 2) ++ "\"" ++ jsonEscape k ++ "\": " ++ Json.renderPretty lvl v ++ ",\n" ++
        Json.renderPrettyFields lvl (f :: fs)
end

/-- JavaScript property lookup on a parsed JSON value (`obj.field`):
`some` when the field is present, `none` when absent or the value is not
an object. -/
def Json.getField : Json → String → Option Json
  | .obj fs, k => (fs.find? (fun f => f.1 = k)).map (fun f => f.2)
  | _, _ => none

/-- Truthiness test for a field expected to hold a boolean
(`firstResult.success` in the source): true exactly when the field is
present and `true`. -/
def Json.fieldIsTrue (j : Json) (k : String) : Bool :=
  match j.getField k with
  | some (.bool true) => true
  | _ => false

/-- Array field access with JavaScript truthiness (`x.results &&
x.results.length > 0` style checks): the element list when the field holds
an array, `[]` otherwise. -/
def Json.fieldArr (j : Json) (k : String) : List Json :=
  match j.getField k with
  | some (.arr xs) => xs
  | _ => []

/-- A string field read under JavaScript truthiness (`if (x.error)`):
`some s` only when the field holds a non-empty string (null, absent and
`""` are all falsy). -/
def Json.fieldTruthyStr (j : Json) (k : String) : Option String :=
  match j.getField k with
  | some (.str s) => if s = "" then none else some s
  | _ => none

/-! ## Foundry client (`src/lib/foundry-client.ts`) -/

/-- Structure `FoundryOntologyObject` from `foundry-client.ts`: `rid` plus a property
record (modelled as a JSON value). -/
structure FoundryOntologyObject where
  rid : String
  properties : Json

/-- Structure `FoundrySearchResponse` from `foundry-client.ts`; every field is
optional in the TypeScript interface. -/
structure FoundrySearchResponse where
  data : Option (List FoundryOntologyObject)
  totalCount : Option Nat
  nextPageToken : Option String
  searchedTypes : Option (List String)
  message : Option String

/-- The options object of `searchOntologyObjects`; all fields optional,
with the defaults (`maxResults = 10`, `autoDiscover = false`) applied
inside the function as in the source. -/
structure SearchOptions where
  ontologyRid : Option String := none
  objectType : Option String := none
  maxResults : Option Nat := none
  autoDiscover : Option Bool := none

/-- The `{ data: [], totalCount: 0 }` literal that `searchOntologyObjects`
returns when discovery finds no object types, and that the per-type
`.catch` handler substitutes for a failed type. -/
def emptyCountResponse : FoundrySearchResponse :=
  ⟨some [], some 0, none, none, none⟩

/-- Function `searchOntologyObjects` from `foundry-client.ts`.

External calls are explicit outcomes: `envRid` is
`process.env.FOUNDRY_ONTOLOGY_RID` (via `getOntologyRid`), `listOut` the
outcome of `listObjectTypes(ontologyRid)` (which rethrows its errors),
`perType t` the outcome of `queryOntologyByType(t, searchQuery, ...)`, and
`direct` the outcome of the single-type search API call used when
`options.objectType` is given.  A thrown error is `Except.error` (the
`catch` at the end of the source function logs and rethrows). -/
def searchOntologyObjects (searchQuery : String) (options : SearchOptions)
    (envRid : Option String) (listOut : Except String (List String))
    (perType : String → Except String FoundrySearchResponse)
    (direct : Except String FoundrySearchResponse) :
    Except String FoundrySearchResponse :=
  -- const ontologyRid = options.ontologyRid || await getOntologyRid();
  match options.ontologyRid.orElse (fun _ => envRid) with
  | none =>
      -- graceful fallback when not configured
      .ok ⟨some [], some 0, none, none, some "Ontology search not configured"⟩
  | some _ =>
    let maxResults := options.maxResults.getD 10
    let autoDiscover := options.autoDiscover.getD false
    match options.objectType with
    | some _ =>
        -- specific object type: one direct search API call
        direct
    | none =>
      if autoDiscover then
        match listOut with
        | .error e => .error e
        | .ok objectTypes =>
          if objectTypes.length = 0 then
            .ok emptyCountResponse
          else
            -- search across first 5 object types to avoid too many API calls
            let typesToSearch := objectTypes.take 5
            let results := typesToSearch.map (fun t =>
              match perType t with
              | .ok r => r
              | .error _ => emptyCountResponse)
            let allData := (results.map (fun r => r.data.getD [])).flatten
            let totalCount := results.foldl (fun sum r => sum + r.totalCount.getD 0) 0
            .ok ⟨some (allData.take maxResults), some totalCount, none,
                 some typesToSearch, none⟩
      else
        .error ("Please specify an objectType or set autoDiscover:true. " ++
          "Use listObjectTypes() to see available types.")

/-! ## Search Gateway (`src/app/api/deep-research/foundry-tools.ts`) -/

/-- Function `webSearch` from `foundry-tools.ts`.

`outcome` is the combined outcome of `callFoundryFunction` plus the
envelope-unwrapping and `JSON.parse` steps: `.ok parsed` is the parsed
response object, `.error msg` any throw on that path (fetch failure,
non-OK HTTP status, malformed JSON).  Every return path of the source
applies `.slice(0, 15000)`. -/
def webSearch (query : String) (outcome : Except String Json) : String :=
  match outcome with
  | .ok parsedResult =>
    -- if (parsedResult.searchResults && parsedResult.searchResults.length > 0)
    let fallThrough :=
      -- if (parsedResult.error) { ... } ; fallback: full response
      match parsedResult.fieldTruthyStr "error" with
      | some e =>
          let fields := [("error", Json.str e)] ++
            (match parsedResult.getField "details" with
             | some d => [("details", d)]
             | none => []) ++ [("query", Json.str query)]
          jsSlice (Json.render (.obj fields)) 15000
      | none => jsSlice (Json.render parsedResult) 15000
    match parsedResult.fieldArr "searchResults" with
    | firstResult :: _ =>
        -- if (firstResult.success && firstResult.results && firstResult.results.length > 0)
        if firstResult.fieldIsTrue "success" && !(firstResult.fieldArr "results").isEmpty then
          jsSlice (Json.render (.obj
            [("success", Json.bool true),
             ("results", Json.arr (firstResult.fieldArr "results"))])) 15000
        else
          -- else if (firstResult.error)
          match firstResult.fieldTruthyStr "error" with
          | some err =>
              jsSlice (Json.render (.obj
                [("error", Json.str err), ("query", Json.str query)])) 15000
          | none => fallThrough
    | [] => fallThrough
  | .error e =>
      -- catch: structured error result
      jsSlice (Json.render (.obj
        [("error", Json.str "Foundry function call failed"),
         ("message", Json.str e),
         ("query", Json.str query)])) 15000

/-- The fixed placeholder `ontologySearch` returns when the client reports
that ontology search is not configured. -/
def ontologyNotConfiguredMsg : String :=
  "[INTERNAL DATA - Not Configured]\n" ++
  "Ontology search is not configured. Set FOUNDRY_ONTOLOGY_RID environment " ++
  "variable to enable internal data search."

/-- The success branch of `ontologySearch`: the not-configured check, the
`formattedResults` object, `JSON.stringify(..., null, 2)`, truncation to
15000 characters and the wrapper with the optional `...(truncated)`
marker. -/
def formatOntologySuccess (query : String) (response : FoundrySearchResponse) : String :=
  if response.message = some "Ontology search not configured" then
    ontologyNotConfiguredMsg
  else
    let formattedResults : Json := .obj
      [("query", .str query),
       ("totalCount", .num (response.totalCount.getD 0)),
       ("searchedTypes", .arr ((response.searchedTypes.getD []).map .str)),
       ("results", .arr ((response.data.getD []).map (fun obj => .obj
          [("rid", .str obj.rid), ("properties", obj.properties)]))),
       ("hasMore", .bool response.nextPageToken.isSome)]
    let jsonString := Json.renderPretty 0 formattedResults
    let truncated := jsSlice jsonString 15000
    "[INTERNAL DATA - Foundry Ontology]\n" ++ truncated ++
      (if 15000 < jsonString.length then "\n...(truncated)" else "")

/-- The catch branch of `ontologySearch`: the fallback error message built
from the query and the thrown error's message. -/
def ontologyErrorMsg (query : String) (errMessage : String) : String :=
  "[INTERNAL DATA - Error]\nFailed to query Foundry Ontology for: \"" ++ query ++
  "\"\nError: " ++ errMessage ++
  "\n\nThis might be due to:\n" ++
  "- Missing FOUNDRY_ONTOLOGY_RID environment variable\n" ++
  "- Invalid authentication token\n" ++
  "- Network connectivity issues\n" ++
  "- Ontology configuration issues\n\n" ++
  "Please check your environment configuration."

/-- Function `ontologySearch` from `foundry-tools.ts`: calls `searchOntologyObjects`
with `{ maxResults: 10, autoDiscover: true }`, formats a successful
response and catches any thrown error into the fallback message. -/
def ontologySearch (query : String) (envRid : Option String)
    (listOut : Except String (List String))
    (perType : String → Except String FoundrySearchResponse)
    (direct : Except String FoundrySearchResponse) : String :=
  match searchOntologyObjects query
      { maxResults := some 10, autoDiscover := some true }
      envRid listOut perType direct with
  | .ok response => formatOntologySuccess query response
  | .error e => ontologyErrorMsg query e

/-! ## Research loop helpers (`src/app/api/deep-research/research-functions.ts`) -/

/-- The two search sources a query can be tagged with (the `z.enum(["web",
"ontology"])` in the planning and analysis schemas). -/
inductive Source where
  | web
  | ontology
deriving DecidableEq, Repr

/-- Structure `SearchResult` consumed and produced by `research-functions.ts`. -/
structure SearchResult where
  title : String
  url : String
  content : String

/-- A finding (`ResearchFindings` in `types.ts`): a summary plus its source
label. -/
structure ResearchFindings where
  summary : String
  source : String
deriving DecidableEq, Repr

/-- Modelled from the spec: `ResearchState` is declared in `types.ts`,
which is not in `src/`; fields follow spec §3 (topic, clarifications text,
append-only findings, completed-step counter, token counter, iteration
counter) and the field names used by `research-functions.ts`. -/
structure ResearchState where
  topic : String
  clerificationsText : String
  findings : List ResearchFindings
  completedSteps : Nat
  tokenUsed : Nat
  iteration : Nat
deriving DecidableEq, Repr

/-- Modelled from the spec: `handleError` lives in `utils.ts`, which is not
in `src/`; per spec §7(c) every failing call site resolves to its named
fallback value, so `handleError` returns the fallback it is given (its
logging side channel is not modelled). -/
def handleError {α : Type} (fallbackReturn : α) : α :=
  fallbackReturn

/-- A planned query: `{ query, source }` from the planning/analysis
schemas. -/
structure SearchQuery where
  query : String
  source : Source
deriving DecidableEq, Repr

/-- The structured output of the planning model call. -/
structure PlanResult where
  searchQueries : List SearchQuery
deriving DecidableEq, Repr

/-- Function `generateSearchQueries` from `research-functions.ts`.  `modelOut` is
the outcome of the `callModel` planning call (`model-caller.ts` is not in
`src/`; per the spec it either returns a schema-conforming value or
throws); on a throw the catch branch returns the minimal fallback via
`handleError`. -/
def generateSearchQueries (researchState : ResearchState)
    (modelOut : Except String PlanResult) : PlanResult :=
  match modelOut with
  | .ok result => result
  | .error _ =>
      handleError { searchQueries := [⟨researchState.topic, Source.web⟩] }

/-- Function `search` from `research-functions.ts`.  The branch on `source` picks
the backend; both backends are total (they catch their own failures), so
the surrounding `try` never throws and the `catch` branch returning `[]`
is unreachable.  `webOut` is the web backend outcome, the remaining
arguments are the ontology backend outcomes threaded to
`ontologySearch`. -/
def search (query : String) (source : Source)
    (webOut : Except String Json)
    (envRid : Option String) (listOut : Except String (List String))
    (perType : String → Except String FoundrySearchResponse)
    (direct : Except String FoundrySearchResponse)
    (researchState : ResearchState) :
    List SearchResult × ResearchState :=
  let title := if source = Source.web then "Web Results" else "Ontology Results"
  let url := if source = Source.web then "Firecrawl" else "Foundry"
  let content :=
    match source with
    | .web => webSearch query webOut
    | .ontology => ontologySearch query envRid listOut perType direct
  -- researchState.completedSteps++
  ([{ title := title, url := url, content := content }],
   { researchState with completedSteps := researchState.completedSteps + 1 })

/-- The value `extractContent` resolves with on success: `{ url, summary }`. -/
structure ExtractionResult where
  url : String
  summary : String

/-- Function `extractContent` from `research-functions.ts`: `modelOut` is the
outcome of the extraction `callModel` call; a throw is caught and turned
into `null` (here `none`) via `handleError`. -/
def extractContent (url : String)
    (modelOut : Except String String) : Option ExtractionResult :=
  match modelOut with
  | .ok summary => some { url := url, summary := summary }
  | .error _ => handleError none

/-- Function `processSearchResults` from `research-functions.ts`: runs
`extractContent` over the batch (`Promise.allSettled`; every promise
fulfills because `extractContent` catches), keeps the fulfilled non-null
values and maps them to findings.  `extractOut` gives the extraction model
call's outcome for each result's content. -/
def processSearchResults (searchResults : List SearchResult)
    (extractOut : String → Except String String) : List ResearchFindings :=
  let extractionResults := searchResults.map (fun result =>
    extractContent result.url (extractOut result.content))
  let newFindings := extractionResults.filterMap (fun result =>
    match result with
    | some value => some { summary := value.summary, source := value.url }
    | none => none)
  newFindings

/-- The structured output of the analysis (Sufficiency Judge) model call. -/
structure AnalysisResult where
  sufficient : Bool
  gaps : List String
  queries : List SearchQuery
deriving DecidableEq, Repr

/-- Function `analyzeFindings` from `research-functions.ts`: `modelOut` is the
outcome of the analysis `callModel` call; a throw is caught and the
conservative fallback (`sufficient: false`, one generic web query) is
returned via `handleError`. -/
def analyzeFindings (researchState : ResearchState)
    (currentQueries : List String) (currentIteration : Nat)
    (modelOut : Except String AnalysisResult) : AnalysisResult :=
  match modelOut with
  | .ok result => result
  | .error _ =>
      handleError
        { sufficient := false,
          gaps := ["Unable to analyze content"],
          queries := [⟨"Please try a different search query", Source.web⟩] }

/-! ## Helper definitions for the verification statements -/

/-- Boolean test that `p` is an initial segment of `l` (character lists). -/
def startsWithChars : List Char → List Char → Bool
  | [], _ => true
  | _ :: _, [] => false
  | p :: ps, c :: cs => p == c && startsWithChars ps cs

/-- Boolean test that `p` occurs as a contiguous run inside `l`. -/
def hasSubstrChars (p : List Char) : List Char → Bool
  | [] => startsWithChars p []
  | c :: cs => startsWithChars p (c :: cs) || hasSubstrChars p cs

/-- Boolean substring test on strings. -/
def hasSubstr (s pat : String) : Bool :=
  hasSubstrChars pat.data s.data

/-- A per-type oracle with every failing outcome replaced by the empty
response that the `.catch` handler in `searchOntologyObjects` substitutes
for a failed type. -/
def patchOracle (perType : String → Except String FoundrySearchResponse)
    (t : String) : Except String FoundrySearchResponse :=
  match perType t with
  | .ok r => .ok r
  | .error _ => .ok emptyCountResponse

/-- A query string of 15001 characters, above the 15000-character content
budget. -/
def longQuery : String :=
  String.mk (List.replicate 15001 'a')

/-- A fresh research state with zero completed steps. -/
def initialState : ResearchState :=
  { topic := "TypeScript best practices", clerificationsText := "",
    findings := [], completedSteps := 0, tokenUsed := 0, iteration := 0 }

/-! ## General lemmas -/

/-- Evaluation of `searchOntologyObjects` on the auto-discover path with a
configured RID and at least one discovered object type. -/
theorem searchOntologyObjects_auto (q rid : String) (mro : Option Nat)
    (types : List String) (pt : String → Except String FoundrySearchResponse)
    (d : Except String FoundrySearchResponse) (h : types ≠ []) :
    searchOntologyObjects q ⟨none, none, mro, some true⟩ (some rid) (.ok types) pt d
      = .ok ⟨some (((((types.take 5).map (fun t =>
              match pt t with
              | .ok r => r
              | .error _ => emptyCountResponse)).map
                (fun r => r.data.getD [])).flatten).take (mro.getD 10)),
            some (((types.take 5).map (fun t =>
              match pt t with
              | .ok r => r
              | .error _ => emptyCountResponse)).foldl
                (fun sum r => sum + r.totalCount.getD 0) 0),
            none, some (types.take 5), none⟩ := by
  have hlen : ¬ types.length = 0 := by simpa using h
  simp [searchOntologyObjects, hlen]

/-! ## Claim theorems -/

/-- C2: `search` is a total function (no exception escapes its boundary,
because both backends catch their own failures), it returns exactly one
`SearchResult` whatever the backend outcome — including failing outcomes —
and when the web backend call throws, that single result's content is the
structured error JSON built by `webSearch`'s catch branch. -/
theorem search_returns_exactly_one_result :
    (∀ (query : String) (source : Source) (webOut : Except String Json)
        (envRid : Option String) (listOut : Except String (List String))
        (perType : String → Except String FoundrySearchResponse)
        (direct : Except String FoundrySearchResponse)
        (researchState : ResearchState),
      (search query source webOut envRid listOut perType direct researchState).1.length = 1)
    ∧ (∀ (query e : String) (envRid : Option String)
        (listOut : Except String (List String))
        (perType : String → Except String FoundrySearchResponse)
        (direct : Except String FoundrySearchResponse)
        (researchState : ResearchState),
      (search query Source.web (.error e) envRid listOut perType direct researchState).1
        = [⟨"Web Results", "Firecrawl",
            jsSlice (Json.render (.obj
              [("error", .str "Foundry function call failed"),
               ("message", .str e),
               ("query", .str query)])) 15000⟩]) :=
  ⟨fun _ _ _ _ _ _ _ _ => rfl, fun _ _ _ _ _ _ _ => rfl⟩

/-- C5: when the planning model call fails, `generateSearchQueries`
returns (rather than throws) the fallback batch: exactly one query whose
text is the raw topic and whose source is `web`. -/
theorem planner_failure_falls_back_to_topic_web_query
    (researchState : ResearchState) (e : String) :
    (generateSearchQueries researchState (.error e)).searchQueries
      = [⟨researchState.topic, Source.web⟩] :=
  rfl

/-- C6: when the analysis model call fails, `analyzeFindings` returns
(rather than throws) a value with `sufficient = false` and exactly one
fallback query with source `web`. -/
theorem judge_failure_falls_back_to_insufficient (researchState : ResearchState)
    (currentQueries : List String) (currentIteration : Nat) (e : String) :
    (analyzeFindings researchState currentQueries currentIteration (.error e)).sufficient = false
    ∧ (analyzeFindings researchState currentQueries currentIteration (.error e)).queries
        = [⟨"Please try a different search query", Source.web⟩] :=
  ⟨rfl, rfl⟩

/-- C8 (amended): every call to `search` — whether the backend outcome is
a success or a captured failure — increments `completedSteps` by exactly
one and leaves every other field of the research state unchanged. -/
theorem search_increments_completed_steps (query : String) (source : Source)
    (webOut : Except String Json) (envRid : Option String)
    (listOut : Except String (List String))
    (perType : String → Except String FoundrySearchResponse)
    (direct : Except String FoundrySearchResponse)
    (researchState : ResearchState) :
    (search query source webOut envRid listOut perType direct researchState).2
      = { researchState with completedSteps := researchState.completedSteps + 1 } :=
  rfl

/-- C8 (counterexample): a `search` call whose backend invocation fails
(the web backend outcome is a thrown network error) does NOT leave
`completedSteps` unchanged — the failure is captured inside `webSearch`,
so `search` still counts the step, contradicting the claim's second
half. -/
theorem search_failed_backend_still_counts_step :
    (search "q" Source.web (.error "network down") none (.error "x")
        (fun _ => .error "x") (.error "x") initialState).2.completedSteps
      ≠ initialState.completedSteps := by
  decide

/-- C10: with an ontology RID configured via the environment, no
`objectType` in the options and `autoDiscover` left at its default
(`none`, i.e. `false`) or explicitly `false`, `searchOntologyObjects`
throws the error asking the caller to specify an object type or enable
auto-discovery, instead of returning a result value. -/
theorem search_without_type_or_discover_throws (q rid : String)
    (mro : Option Nat) (ad : Option Bool)
    (listOut : Except String (List String))
    (pt : String → Except String FoundrySearchResponse)
    (d : Except String FoundrySearchResponse)
    (h : ad.getD false = false) :
    searchOntologyObjects q ⟨none, none, mro, ad⟩ (some rid) listOut pt d
      = .error ("Please specify an objectType or set autoDiscover:true. " ++
          "Use listObjectTypes() to see available types.") := by
  simp [searchOntologyObjects, h]

/-- C10 (witness): the theorem applied at a concrete input with the
default options object. -/
theorem search_without_type_or_discover_throws_witness :
    (none : Option Bool).getD false = false
    ∧ searchOntologyObjects "q" ⟨none, none, none, none⟩ (some "rid")
        (.error "u") (fun _ => .error "u") (.error "u")
      = .error ("Please specify an objectType or set autoDiscover:true. " ++
          "Use listObjectTypes() to see available types.") :=
  ⟨rfl, search_without_type_or_discover_throws "q" "rid" none none
      (.error "u") (fun _ => .error "u") (.error "u") rfl⟩

/-- C4: on the auto-discover path with a nonempty discovered type list,
exactly the first 5 types are searched (all of them when fewer than 5
exist), the per-type data lists are unioned in order, and the returned
data is capped at the requested `maxResults` (default 10). -/
theorem auto_discover_searches_first_five (q rid : String) (mro : Option Nat)
    (types : List String) (pt : String → Except String FoundrySearchResponse)
    (d : Except String FoundrySearchResponse) (h : types ≠ []) :
    ∃ resp, searchOntologyObjects q ⟨none, none, mro, some true⟩ (some rid)
        (.ok types) pt d = .ok resp
      ∧ resp.searchedTypes = some (types.take 5)
      ∧ (types.length ≤ 5 → resp.searchedTypes = some types)
      ∧ resp.data = some ((((types.take 5).map (fun t =>
            match pt t with
            | .ok r => r.data.getD []
            | .error _ => [])).flatten).take (mro.getD 10))
      ∧ (resp.data.getD []).length ≤ mro.getD 10 := by
  refine ⟨_, searchOntologyObjects_auto q rid mro types pt d h, rfl, ?_, ?_, ?_⟩
  · intro h5
    simp [List.take_of_length_le h5]
  · simp only [List.map_map]
    have hfun : ((fun r => r.data.getD []) ∘ (fun t =>
        match pt t with
        | .ok r => r
        | .error _ => emptyCountResponse))
        = (fun t => match pt t with
            | .ok r => r.data.getD []
            | .error _ => ([] : List FoundryOntologyObject)) := by
      funext t
      show (match pt t with
        | .ok r => r
        | .error _ => emptyCountResponse).data.getD [] = _
      cases pt t <;> rfl
    rw [hfun]
  · dsimp only
    simp only [Option.getD_some, List.length_take]
    exact Nat.min_le_left _ _

/-- C4 (witness): the theorem applied to two discovered types with a
per-type oracle that fails for every type, capped at 10. -/
theorem auto_discover_searches_first_five_witness :
    (["Employee", "Project"] : List String) ≠ []
    ∧ ∃ resp, searchOntologyObjects "q" ⟨none, none, some 10, some true⟩ (some "rid")
        (.ok ["Employee", "Project"]) (fun _ => .error "down") (.error "u") = .ok resp
      ∧ resp.searchedTypes = some ["Employee", "Project"]
      ∧ ((["Employee", "Project"] : List String).length ≤ 5 →
          resp.searchedTypes = some ["Employee", "Project"])
      ∧ resp.data = some []
      ∧ (resp.data.getD []).length ≤ 10 :=
  ⟨by decide, auto_discover_searches_first_five "q" "rid" (some 10)
      ["Employee", "Project"] (fun _ => .error "down") (.error "u") (by decide)⟩

/-- C9: on the auto-discover path, per-type failures are indistinguishable
from types that succeed with zero data — the run with the real oracle
equals the run with every failure replaced by the empty response — and the
failure is not surfaced: the call still returns `.ok`, with no message and
with the failing types still listed in `searchedTypes`. -/
theorem failed_types_contribute_empty_union (q rid : String) (mro : Option Nat)
    (types : List String) (pt : String → Except String FoundrySearchResponse)
    (d : Except String FoundrySearchResponse) (h : types ≠ []) :
    searchOntologyObjects q ⟨none, none, mro, some true⟩ (some rid) (.ok types) pt d
      = searchOntologyObjects q ⟨none, none, mro, some true⟩ (some rid) (.ok types)
          (patchOracle pt) d
    ∧ ∃ resp, searchOntologyObjects q ⟨none, none, mro, some true⟩ (some rid)
          (.ok types) pt d = .ok resp
        ∧ resp.message = none
        ∧ resp.searchedTypes = some (types.take 5) := by
  have hfun : (fun t => match patchOracle pt t with
      | .ok r => r
      | .error _ => emptyCountResponse)
      = (fun t => match pt t with
      | .ok r => r
      | .error _ => emptyCountResponse) := by
    funext t
    unfold patchOracle
    cases pt t <;> rfl
  constructor
  · rw [searchOntologyObjects_auto q rid mro types pt d h,
        searchOntologyObjects_auto q rid mro types (patchOracle pt) d h, hfun]
  · exact ⟨_, searchOntologyObjects_auto q rid mro types pt d h, rfl, rfl⟩

/-- C9 (witness): the theorem applied to two types of which the first
fails and the second succeeds with data. -/
theorem failed_types_contribute_empty_union_witness :
    (["Alpha", "Beta"] : List String) ≠ []
    ∧ (searchOntologyObjects "q" ⟨none, none, some 10, some true⟩ (some "rid")
          (.ok ["Alpha", "Beta"])
          (fun t => if t = "Beta"
            then .ok ⟨some [⟨"r1", Json.null⟩], some 2, none, none, none⟩
            else .error "boom") (.error "u")
        = searchOntologyObjects "q" ⟨none, none, some 10, some true⟩ (some "rid")
          (.ok ["Alpha", "Beta"])
          (patchOracle (fun t => if t = "Beta"
            then .ok ⟨some [⟨"r1", Json.null⟩], some 2, none, none, none⟩
            else .error "boom")) (.error "u")
      ∧ ∃ resp, searchOntologyObjects "q" ⟨none, none, some 10, some true⟩ (some "rid")
          (.ok ["Alpha", "Beta"])
          (fun t => if t = "Beta"
            then .ok ⟨some [⟨"r1", Json.null⟩], some 2, none, none, none⟩
            else .error "boom") (.error "u") = .ok resp
        ∧ resp.message = none
        ∧ resp.searchedTypes = some ["Alpha", "Beta"]) :=
  ⟨by decide, failed_types_contribute_empty_union "q" "rid" (some 10)
      ["Alpha", "Beta"]
      (fun t => if t = "Beta"
        then .ok ⟨some [⟨"r1", Json.null⟩], some 2, none, none, none⟩
        else .error "boom") (.error "u") (by decide)⟩

/-- C7: `processSearchResults` returns exactly the findings of the
extractions that succeeded with a value (it is total, so no exception
escapes), and when every extraction in the batch fails the returned list
of new findings is empty. -/
theorem process_keeps_only_successful_extractions
    (searchResults : List SearchResult)
    (extractOut : String → Except String String) :
    processSearchResults searchResults extractOut
      = searchResults.filterMap (fun result =>
          match extractOut result.content with
          | .ok summary => some ⟨summary, result.url⟩
          | .error _ => none)
    ∧ ((∀ result ∈ searchResults, (extractOut result.content).isOk = false) →
        processSearchResults searchResults extractOut = []) := by
  have h1 : processSearchResults searchResults extractOut
      = searchResults.filterMap (fun result =>
          match extractOut result.content with
          | .ok summary => some ⟨summary, result.url⟩
          | .error _ => none) := by
    unfold processSearchResults
    dsimp only
    rw [List.filterMap_map]
    have hfun : ((fun (result : Option ExtractionResult) =>
        match result with
        | some value => some ({ summary := value.summary, source := value.url } : ResearchFindings)
        | none => none) ∘ (fun (result : SearchResult) =>
          extractContent result.url (extractOut result.content)))
        = (fun result =>
          match extractOut result.content with
          | .ok summary => some (⟨summary, result.url⟩ : ResearchFindings)
          | .error _ => none) := by
      funext result
      show (match extractContent result.url (extractOut result.content) with
        | some value => some ({ summary := value.summary, source := value.url } : ResearchFindings)
        | none => none) = _
      unfold extractContent
      cases extractOut result.content <;> rfl
    rw [hfun]
  refine ⟨h1, fun hall => ?_⟩
  rw [h1]
  refine List.filterMap_eq_nil_iff.mpr (fun result hr => ?_)
  have hok := hall result hr
  cases hout : extractOut result.content with
  | ok summary => rw [hout] at hok; simp [Except.isOk, Except.toBool] at hok
  | error e => simp

/-- C7 (witness): the theorem's all-fail branch applied to a one-element
batch whose extraction fails. -/
theorem process_keeps_only_successful_extractions_witness :
    (∀ result ∈ ([⟨"T", "U", "C"⟩] : List SearchResult),
        ((fun _ => (.error "model down" : Except String String)) result.content).isOk = false)
    ∧ processSearchResults [⟨"T", "U", "C"⟩] (fun _ => .error "model down") = [] :=
  ⟨fun _ _ => rfl,
   (process_keeps_only_successful_extractions [⟨"T", "U", "C"⟩]
      (fun _ => .error "model down")).2 (fun _ _ => rfl)⟩

/-- C3 (amended): when auto-discovery finds zero object types, the client
returns `.ok` (no exception) with `totalCount = 0`, empty data, and —
contrary to the claim — no marker field of any kind (`message = none`;
the "No object types found" text only goes to the console log); the
gateway then formats that bare empty response. -/
theorem zero_types_yields_unmarked_empty_result (q rid : String)
    (pt : String → Except String FoundrySearchResponse)
    (d : Except String FoundrySearchResponse) :
    searchOntologyObjects q ⟨none, none, some 10, some true⟩ (some rid) (.ok []) pt d
      = .ok emptyCountResponse
    ∧ emptyCountResponse.totalCount = some 0
    ∧ emptyCountResponse.message = none
    ∧ ontologySearch q (some rid) (.ok []) pt d
      = formatOntologySuccess q emptyCountResponse :=
  ⟨rfl, rfl, rfl, rfl⟩

set_option maxRecDepth 10000 in
/-- C3 (counterexample): at a concrete query with zero discovered object
types, the gateway result reports `totalCount == 0` and no exception is
raised, but it carries no explicit "no categories" marker: the response's
`message` field is `none` and the returned string mentions neither
"categor(y/ies)" nor "No object types". -/
theorem zero_types_result_has_no_marker :
    searchOntologyObjects "alpha" ⟨none, none, some 10, some true⟩ (some "rid")
        (.ok []) (fun _ => .error "unused") (.error "unused")
      = .ok emptyCountResponse
    ∧ emptyCountResponse.message = none
    ∧ hasSubstr (ontologySearch "alpha" (some "rid") (.ok [])
        (fun _ => .error "unused") (.error "unused")) "categor" = false
    ∧ hasSubstr (ontologySearch "alpha" (some "rid") (.ok [])
        (fun _ => .error "unused") (.error "unused")) "No object types" = false
    ∧ hasSubstr (ontologySearch "alpha" (some "rid") (.ok [])
        (fun _ => .error "unused") (.error "unused")) "totalCount\": 0" = true :=
  ⟨rfl, rfl, by decide, by decide, by decide⟩

/-- Every return path of `webSearch` is a `.slice(0, 15000)` of some
string. -/
theorem webSearch_isSlice (query : String) (outcome : Except String Json) :
    ∃ s, webSearch query outcome = jsSlice s 15000 := by
  unfold webSearch
  cases outcome with
  | error e => exact ⟨_, rfl⟩
  | ok parsed =>
    dsimp only
    split
    · split
      · exact ⟨_, rfl⟩
      · split
        · exact ⟨_, rfl⟩
        · split
          · exact ⟨_, rfl⟩
          · exact ⟨_, rfl⟩
    · split
      · exact ⟨_, rfl⟩
      · exact ⟨_, rfl⟩

/-- Bound for the wrapper built around a truncated ontology JSON body. -/
theorem ontologyWrap_length_le (jsonString : String) :
    ("[INTERNAL DATA - Foundry Ontology]\n" ++ jsSlice jsonString 15000 ++
      (if 15000 < jsonString.length then "\n...(truncated)" else "")).length ≤ 15050 := by
  rw [String.length_append, String.length_append]
  have h1 : (jsSlice jsonString 15000).length ≤ 15000 := jsSlice_length_le _ _
  have h2 : ("[INTERNAL DATA - Foundry Ontology]\n" : String).length = 35 := by decide
  have h3 : (if 15000 < jsonString.length then ("\n...(truncated)" : String) else "").length ≤ 15 := by
    split <;> decide
  omega

set_option maxRecDepth 10000 in
/-- C1 (amended): every web-search content string is at most 15000
characters on all paths (success, backend-reported error, thrown error);
every ontology content string produced from a non-throwing client response
is at most 15050 characters — the 15000-character truncated JSON body plus
the fixed 35-character header and the fixed 15-character truncation
marker.  (The ontology catch path embeds the raw query and error message
and is not bounded; see the counterexample.) -/
theorem gateway_content_budget :
    (∀ (query : String) (outcome : Except String Json),
        (webSearch query outcome).length ≤ 15000)
    ∧ (∀ (query : String) (response : FoundrySearchResponse),
        (formatOntologySuccess query response).length ≤ 15050) := by
  constructor
  · intro query outcome
    obtain ⟨s, hs⟩ := webSearch_isSlice query outcome
    rw [hs]
    exact jsSlice_length_le _ _
  · intro query response
    unfold formatOntologySuccess
    split
    · decide
    · exact ontologyWrap_length_le _

/-- C1 (counterexample): a 15001-character query sent to the ontology
source while the backend throws makes the gateway return a content string
longer than 15000 characters — the catch-path template embeds the query
unsliced, so the claimed bound fails on the error path. -/
theorem ontology_error_content_exceeds_budget :
    15000 < (ontologySearch longQuery (some "rid") (.error "network failure")
        (fun _ => .error "unused") (.error "unused")).length := by
  have he : ontologySearch longQuery (some "rid") (.error "network failure")
      (fun _ => .error "unused") (.error "unused")
      = ontologyErrorMsg longQuery "network failure" := rfl
  rw [he]
  have hq : longQuery.length = 15001 := by
    show (List.replicate 15001 'a').length = 15001
    exact List.length_replicate _ _
  unfold ontologyErrorMsg
  simp only [String.length_append, hq]
  omega
